import Mathlib

/-!
Formal model of the Industrial Detective analytics engine and its dashboard
frontend.  Frontend definitions are translated from the TypeScript sources
(`frontend/src/lib/api.ts`, `frontend/src/components/*.tsx`); the Python
backend (`backend/analysis.py`, `backend/ml_models.py`) is not part of the
source tree, so the engine operations are modelled from the specification
(spec.md §3–§4), as indicated on each definition.
-/

namespace IndustrialDetective

/-! ## Discrete classification values (spec.md §3) -/

/-- Correlation strength bands, spec.md §3 CorrelationFinding. -/
inductive Strength where
  | weak
  | moderate
  | strong
  | very_strong
deriving DecidableEq, Repr

/-- Insight severity levels, spec.md §3 Insight. -/
inductive SeverityLevel where
  | critical
  | high
  | medium
  | low
deriving DecidableEq, Repr

/-- Corrective-action priority levels, spec.md §3 Action. -/
inductive Priority where
  | high
  | medium
  | low
deriving DecidableEq, Repr

/-- Root-cause pattern families, spec.md §4.5 (temporal / equipment /
operator / environmental sub-analyses). -/
inductive PatternFamily where
  | temporal
  | equipment
  | operatorFactor
  | environmental
deriving DecidableEq, Repr

/-- Modelled from the spec: InsightRanker severity rubric (§4.4): severity is
derived from score bands, score ≥ 8 critical, ≥ 6 high, ≥ 4 medium, else low.
The backend `analysis.py` is not in the source tree. -/
def severityOfScore (s : ℚ) : SeverityLevel :=
  if 8 ≤ s then .critical
  else if 6 ≤ s then .high
  else if 4 ≤ s then .medium
  else .low

/-- Modelled from the spec: ActionRecommender priority rule (§4.6): priority
is assigned by confidence, ≥ 0.7 high, ≥ 0.4 medium, else low.  The backend
`analysis.py` is not in the source tree. -/
def priorityOfConfidence (c : ℚ) : Priority :=
  if 7/10 ≤ c then .high
  else if 4/10 ≤ c then .medium
  else .low

/-- Modelled from the spec: CorrelationEngine strength bands (§4.2) applied to
the square of the coefficient: |r| ≥ 0.9 iff r² ≥ 0.81 → very_strong,
|r| ≥ 0.7 iff r² ≥ 0.49 → strong, |r| ≥ 0.5 iff r² ≥ 0.25 → moderate, else
weak.  The backend `ml_models.py` is not in the source tree; the engine is
kept rational-valued by working with the squared coefficient. -/
def classifyStrengthSq (rSq : ℚ) : Strength :=
  if 81/100 ≤ rSq then .very_strong
  else if 49/100 ≤ rSq then .strong
  else if 25/100 ≤ rSq then .moderate
  else .weak

/-- From `frontend/src/components/CorrelationMatrix.tsx` (`getStrengthText`):
display text for a strength tag, defaulting to Weak. -/
def getStrengthText (strength : String) : String :=
  if strength = "very_strong" then "Very Strong"
  else if strength = "strong" then "Strong"
  else if strength = "moderate" then "Moderate"
  else "Weak"

/-! ## Root causes, actions, and the dashboard root-cause flow -/

/-- A sub-analysis finding attached to a RootCause, spec.md §3. -/
structure CauseFinding where
  family : PatternFamily
  pattern : String
  evidence : String
  equipment : Option String
  issue_count : Option ℕ
deriving DecidableEq, Repr

/-- A ranked root-cause hypothesis, spec.md §3. -/
structure RootCause where
  description : String
  confidence : ℚ
  findings : List CauseFinding
deriving DecidableEq, Repr

instance : Inhabited RootCause := ⟨⟨"", 0, []⟩⟩

/-- Result envelope of the root-cause operation, spec.md §4.5: total issue
count and root-cause list reported alongside each other. -/
structure RootCauseResult where
  total_issues : ℕ
  root_causes : List RootCause
deriving DecidableEq, Repr

/-- A corrective action, spec.md §3 Action. -/
structure ActionItem where
  action : String
  description : String
  priority : Priority
  steps : List String
  estimated_impact : String
deriving DecidableEq, Repr

/-- State held by the `RootCauseAnalysis` dashboard component
(`useState` hooks `analysis` and `actions`). -/
structure RCComponentState where
  analysis : Option RootCauseResult
  actions : List ActionItem
deriving DecidableEq, Repr

/-- From the `RootCauseAnalysis` component (`handleAnalyze`): store the
analysis response; if `root_causes` is non-empty, request suggested actions
for `root_causes[0]` and store them, otherwise leave the previous actions
untouched.  The second component records which RootCause the actions request
was issued for (`none` when no request is made). -/
def handleAnalyze (st : RCComponentState) (resp : RootCauseResult)
    (suggest : RootCause → Option String → List ActionItem)
    (issueType : Option String) : RCComponentState × Option RootCause :=
  match resp.root_causes with
  | [] => ({ analysis := some resp, actions := st.actions }, none)
  | c :: _ => ({ analysis := some resp, actions := suggest c issueType }, some c)

/-- Modelled from the spec: ActionRecommender templates (§4.6), one fixed
template list per pattern family, each with fixed implementation steps and a
qualitative impact string.  The backend `analysis.py` is not in the source
tree. -/
def actionTemplates : PatternFamily → List (String × String × List String × String)
  | .temporal =>
      [("Review shift scheduling", "Investigate the flagged time window",
        ["Audit staffing during the peak window", "Compare output across shifts"],
        "Reduced defect clustering in peak hours")]
  | .equipment =>
      [("Schedule equipment maintenance", "Inspect the flagged machine",
        ["Run diagnostics on the machine", "Calibrate and re-test"],
        "Lower failure frequency on the flagged equipment"),
       ("Review machine operating parameters", "Check setpoints against process limits",
        ["Export controller logs", "Compare against golden batch settings"],
        "Fewer out-of-tolerance parts")]
  | .operatorFactor =>
      [("Provide targeted operator training", "Address the flagged operator pattern",
        ["Review work instructions with the operator", "Schedule refresher training"],
        "Improved first-pass yield for the flagged operator")]
  | .environmental =>
      [("Stabilize environmental conditions", "Control the flagged environmental variable",
        ["Install or recalibrate sensors", "Add alarms on the flagged variable"],
        "Weaker correlation between the variable and defects")]

/-- Dominant finding family of a RootCause (spec.md §4.6: the trigger is the
dominant finding type, taken from the first finding). -/
def RootCause.dominantFamily (rc : RootCause) : Option PatternFamily :=
  rc.findings.head?.map CauseFinding.family

/-- Modelled from the spec: ActionRecommender (§4.6): select the template list
of the dominant finding family, assign every action the priority derived from
the RootCause confidence, return an empty list when no template matches.  The
backend `analysis.py` is not in the source tree. -/
def suggestActions (rc : RootCause) (issueType : Option String) : List ActionItem :=
  match rc.dominantFamily with
  | none => []
  | some fam =>
      (actionTemplates fam).map fun t =>
        { action := t.1
          description := t.2.1
          priority := priorityOfConfidence rc.confidence
          steps := t.2.2.1
          estimated_impact := t.2.2.2 ++ (match issueType with
            | some it => " for issue type " ++ it
            | none => "") }

/-! ## Correlation view rendering -/

/-- A correlation finding as received by the dashboard view. -/
structure CorrDisplay where
  variable1 : String
  variable2 : String
  correlation : ℚ
  strength : String
deriving DecidableEq, Repr

/-- From the `CorrelationMatrix` component: the view maps over
`correlations.slice(0, 10)`, i.e. it renders only the first ten findings of
the response list, in order. -/
def renderedCorrelations (l : List CorrDisplay) : List CorrDisplay :=
  l.take 10

/-! ## CorrelationEngine (spec.md §4.2)

The backend `ml_models.py` is not in the source tree; the engine below is
modelled from the spec.  A dataset cell is either missing or a rational
number; Pearson correlation of a column pair is computed over the paired
non-missing observations.  To keep the engine rational-valued the coefficient
is represented by its numerator `num = n·Σxy − Σx·Σy` and the square
`denSq = (n·Σx² − (Σx)²)·(n·Σy² − (Σy)²)` of its denominator, so that
`r = num / √denSq` and `r² = num² / denSq`. -/

/-- A dataset cell: a numeric value or missing. -/
abbrev Cell := Option ℚ

/-- A named numeric column of the Dataset (spec.md §3). -/
structure NumColumn where
  name : String
  values : List Cell
deriving DecidableEq, Repr

/-- Paired non-missing observations of two columns (spec.md §4.2: valid
non-missing, paired observations). -/
def pairedObs (xs ys : List Cell) : List (ℚ × ℚ) :=
  (List.zip xs ys).filterMap fun p =>
    match p with
    | (some a, some b) => some (a, b)
    | _ => none

/-- Sum of the first components of paired observations. -/
def sumFst (l : List (ℚ × ℚ)) : ℚ := (l.map Prod.fst).sum

/-- Sum of the second components of paired observations. -/
def sumSnd (l : List (ℚ × ℚ)) : ℚ := (l.map Prod.snd).sum

/-- Sum of products of paired observations. -/
def sumMul (l : List (ℚ × ℚ)) : ℚ := (l.map fun p => p.1 * p.2).sum

/-- Sum of squares of the first components. -/
def sumFstSq (l : List (ℚ × ℚ)) : ℚ := (l.map fun p => p.1 * p.1).sum

/-- Sum of squares of the second components. -/
def sumSndSq (l : List (ℚ × ℚ)) : ℚ := (l.map fun p => p.2 * p.2).sum

/-- Numerator of the Pearson coefficient: `n·Σxy − Σx·Σy`. -/
def pearsonNum (l : List (ℚ × ℚ)) : ℚ :=
  (l.length : ℚ) * sumMul l - sumFst l * sumSnd l

/-- Scaled variance of the first coordinate: `n·Σx² − (Σx)²`. -/
def pearsonVarFst (l : List (ℚ × ℚ)) : ℚ :=
  (l.length : ℚ) * sumFstSq l - (sumFst l) ^ 2

/-- Scaled variance of the second coordinate: `n·Σy² − (Σy)²`. -/
def pearsonVarSnd (l : List (ℚ × ℚ)) : ℚ :=
  (l.length : ℚ) * sumSndSq l - (sumSnd l) ^ 2

/-- The Pearson correlation coefficient of a list of paired observations,
as a real number. -/
noncomputable def pearson (l : List (ℚ × ℚ)) : ℝ :=
  (pearsonNum l : ℝ) / Real.sqrt ((pearsonVarFst l : ℝ) * (pearsonVarSnd l : ℝ))

/-- Modelled from the spec: pairwise Pearson correlation of two columns over
their valid paired observations (§4.2). -/
noncomputable def correlation (xs ys : List Cell) : ℝ :=
  pearson (pairedObs xs ys)

/-- A correlation finding (spec.md §3), with the coefficient represented by
`num` and `denSq` (see above). -/
structure CorrelationFinding where
  variable1 : String
  variable2 : String
  num : ℚ
  denSq : ℚ
  strength : Strength
deriving DecidableEq, Repr

/-- Squared coefficient of a finding. -/
def CorrelationFinding.rSq (f : CorrelationFinding) : ℚ := f.num ^ 2 / f.denSq

/-- Real-valued coefficient of a finding. -/
noncomputable def CorrelationFinding.coefficient (f : CorrelationFinding) : ℝ :=
  (f.num : ℝ) / Real.sqrt (f.denSq : ℝ)

/-- Modelled from the spec (§4.2): the finding for one ordered column pair.
Pairs with fewer than 2 valid paired observations are skipped; a pair with a
zero-variance column is skipped (the scaled variances are nonnegative on all
real data, so the guard `≤ 0` coincides with the zero-variance check); the
finding is emitted only when `|r| ≥ threshold`, tested on squares. -/
def mkFinding (threshold : ℚ) (c d : NumColumn) : Option CorrelationFinding :=
  let obs := pairedObs c.values d.values
  if obs.length < 2 then none
  else if pearsonVarFst obs ≤ 0 ∨ pearsonVarSnd obs ≤ 0 then none
  else if threshold ^ 2 * (pearsonVarFst obs * pearsonVarSnd obs) ≤ pearsonNum obs ^ 2 then
    some
      { variable1 := c.name
        variable2 := d.name
        num := pearsonNum obs
        denSq := pearsonVarFst obs * pearsonVarSnd obs
        strength := classifyStrengthSq
          (pearsonNum obs ^ 2 / (pearsonVarFst obs * pearsonVarSnd obs)) }
  else none

/-- All unordered column pairs, each taken once in dataset order (spec.md
§4.2: every unordered pair of numeric columns). -/
def columnPairs : List NumColumn → List (NumColumn × NumColumn)
  | [] => []
  | c :: rest => rest.map (fun d => (c, d)) ++ columnPairs rest

/-- Unsorted findings of all column pairs meeting the threshold. -/
def rawFindings (cols : List NumColumn) (threshold : ℚ) : List CorrelationFinding :=
  (columnPairs cols).filterMap fun p => mkFinding threshold p.1 p.2

/-- Two column pairs denote different unordered variable pairs. -/
def unorderedDistinct (p q : NumColumn × NumColumn) : Prop :=
  ¬((p.1.name = q.1.name ∧ p.2.name = q.2.name) ∨
    (p.1.name = q.2.name ∧ p.2.name = q.1.name))

/-- Ordering of findings by descending absolute coefficient, expressed on the
squared coefficients. -/
def corrOrder (f g : CorrelationFinding) : Prop := g.rSq ≤ f.rSq

instance : DecidableRel corrOrder :=
  fun f g => inferInstanceAs (Decidable (g.rSq ≤ f.rSq))

instance : IsTotal CorrelationFinding corrOrder :=
  ⟨fun f g => le_total g.rSq f.rSq⟩

instance : IsTrans CorrelationFinding corrOrder :=
  ⟨fun _ _ _ h1 h2 => le_trans h2 h1⟩

/-- Modelled from the spec (§4.2): the correlations operation, output ordered
by descending absolute coefficient. -/
def correlationFindings (cols : List NumColumn) (threshold : ℚ) :
    List CorrelationFinding :=
  List.insertionSort corrOrder (rawFindings cols threshold)

/-- From `frontend/src/lib/api.ts` (`getCorrelations: (threshold = 0.5)`):
the threshold sent to `/analysis/correlations` when the caller supplies none
is `0.5`. -/
def defaultCorrelationThreshold : ℚ := 1/2

/-- Effective threshold of a correlations request given the caller-supplied
optional threshold (the TypeScript default-parameter semantics of
`getCorrelations`). -/
def getCorrelationsThreshold (t : Option ℚ) : ℚ :=
  t.getD defaultCorrelationThreshold

/-! ## AnomalyEngine (spec.md §4.3)

The backend `ml_models.py` is not in the source tree; the operation below is
modelled from the spec.  The isolation-style ensemble itself is opaque; what
the spec fixes is its interface: every row receives a score (lower = more
anomalous), rows scoring below the model decision threshold are anomalous,
the operation returns the top-N most anomalous rows together with the anomaly
rate, and fails with `InsufficientData` below 2 numeric columns or 10 rows. -/

/-- Engine error taxonomy (spec.md §7). -/
inductive EngineError where
  | invalidColumnKind
  | invalidRange
  | insufficientData
  | analysisTimeout
  | noDataLoaded
deriving DecidableEq, Repr

/-- An anomalous row: stable row index and its model score (spec.md §3). -/
structure AnomalyRecord where
  index : ℕ
  anomaly_score : ℚ
deriving DecidableEq, Repr

/-- Result of the anomalies operation: top-N anomalous rows and the anomaly
rate (spec.md §4.3). -/
structure AnomalyResult where
  anomalies : List AnomalyRecord
  anomaly_rate : ℚ
deriving DecidableEq, Repr

/-- Ascending score order on anomaly records: lower score = more anomalous
first (spec.md §4.3 sign convention). -/
def scoreOrder (a b : AnomalyRecord) : Prop := a.anomaly_score ≤ b.anomaly_score

instance : DecidableRel scoreOrder :=
  fun a b => inferInstanceAs (Decidable (a.anomaly_score ≤ b.anomaly_score))

instance : IsTotal AnomalyRecord scoreOrder :=
  ⟨fun a b => le_total a.anomaly_score b.anomaly_score⟩

instance : IsTrans AnomalyRecord scoreOrder :=
  ⟨fun _ _ _ h1 h2 => le_trans h1 h2⟩

/-- Modelled from the spec (§4.3): the top-`limit` most anomalous rows, i.e.
the `limit` lowest-scoring rows, most anomalous first. -/
def topAnomalies (scores : List ℚ) (limit : ℕ) : List AnomalyRecord :=
  (List.insertionSort scoreOrder
    (scores.enum.map fun p => { index := p.1, anomaly_score := p.2 })).take limit

/-- Modelled from the spec (§4.3): the anomaly rate is the fraction of rows
whose score lies below the model decision threshold. -/
def anomalyRate (scores : List ℚ) (decisionThreshold : ℚ) : ℚ :=
  ((scores.filter fun s => s < decisionThreshold).length : ℚ) / (scores.length : ℚ)

/-- Modelled from the spec (§4.3): the anomalies operation over the fitted
model scores of all rows.  Fewer than 2 numeric columns or fewer than 10 rows
fails with `InsufficientData`. -/
def anomaliesOp (scores : List ℚ) (numericColumnCount : ℕ)
    (decisionThreshold : ℚ) (limit : ℕ) : Except EngineError AnomalyResult :=
  if numericColumnCount < 2 ∨ scores.length < 10 then
    .error .insufficientData
  else
    .ok { anomalies := topAnomalies scores limit
          anomaly_rate := anomalyRate scores decisionThreshold }

/-- From the `AnomalyDetection` component (`loadAnomalies`): the dashboard
shows `response.data.anomaly_rate || 0` as the Anomaly Rate, i.e. the value
returned by the anomalies operation, defaulting to 0 when absent (a present
rate of 0 is falsy in TypeScript and also yields 0). -/
def shownAnomalyRate (responseRate : Option ℚ) : ℚ :=
  match responseRate with
  | none => 0
  | some r => r

/-! ## RootCauseEngine (spec.md §4.5)

The backend `analysis.py` is not in the source tree; the engine below is
modelled from the spec.  Following §9, the four sub-analyses (temporal,
equipment, operator, environmental) are a set of signal detectors sharing one
contract — input: the filtered dataset; output: zero-or-one signal with a raw
strength (how far the flagged metric exceeds its threshold) and a sample
size.  The engine turns signals into RootCauses with a confidence that is the
normalized combination of raw strength and sample-size adequacy, deduplicates
them by description, and sorts them by descending confidence. -/

/-- A dataset row as seen by the root-cause filter (issue-type and the
structured filter fields of §4.5). -/
structure RCRow where
  issue_type : Option String
  production_line : Option String
  severity : Option String
deriving DecidableEq, Repr

/-- An optional filter field matches a row field when absent or equal. -/
def matchOpt (wanted : Option String) (actual : Option String) : Bool :=
  match wanted with
  | none => true
  | some w => actual == some w

/-- Modelled from the spec (§4.5): restrict the Dataset to rows matching the
optional issue-type filter and the optional structured filters. -/
def matchesRow (issueType line sev : Option String) (r : RCRow) : Bool :=
  matchOpt issueType r.issue_type && matchOpt line r.production_line &&
    matchOpt sev r.severity

/-- The output of one signal detector (spec.md §9): a description, a raw
strength score, a sample size, and the backing finding. -/
structure DetectorSignal where
  family : PatternFamily
  description : String
  rawExcess : ℚ
  sampleSize : ℕ
  finding : CauseFinding
deriving DecidableEq, Repr

/-- A polymorphic signal detector (spec.md §9): filtered dataset in,
zero-or-one signal out. -/
abbrev Detector := List RCRow → Option DetectorSignal

/-- Clamp a rational into `[0, 1]`. -/
def clamp01 (x : ℚ) : ℚ := min 1 (max 0 x)

/-- Sample-size floor below which confidence decreases (spec.md §4.5). -/
def sampleFloor : ℕ := 10

/-- Modelled from the spec (§4.5): confidence is the normalized combination
of (a) how far the flagged metric exceeds its threshold and (b) sample-size
adequacy; it decreases monotonically as the sample size shrinks below the
floor. -/
def confidenceOf (rawExcess : ℚ) (sampleSize : ℕ) : ℚ :=
  clamp01 rawExcess * min 1 ((sampleSize : ℚ) / (sampleFloor : ℚ))

/-- The RootCause contributed by one detector signal. -/
def toRootCause (s : DetectorSignal) : RootCause :=
  { description := s.description
    confidence := confidenceOf s.rawExcess s.sampleSize
    findings := [s.finding] }

/-- Deduplicate root causes by description, keeping the first occurrence
(spec.md §4.5: RootCauses are deduplicated by description). -/
def dedupByDescrAux : List String → List RootCause → List RootCause
  | _, [] => []
  | seen, c :: rest =>
    if c.description ∈ seen then dedupByDescrAux seen rest
    else c :: dedupByDescrAux (c.description :: seen) rest

/-- Deduplication entry point. -/
def dedupByDescription (l : List RootCause) : List RootCause :=
  dedupByDescrAux [] l

/-- Descending confidence order on root causes. -/
def causeOrder (a b : RootCause) : Prop := b.confidence ≤ a.confidence

instance : DecidableRel causeOrder :=
  fun a b => inferInstanceAs (Decidable (b.confidence ≤ a.confidence))

instance : IsTotal RootCause causeOrder :=
  ⟨fun a b => le_total b.confidence a.confidence⟩

instance : IsTrans RootCause causeOrder :=
  ⟨fun _ _ _ h1 h2 => le_trans h2 h1⟩

/-- Modelled from the spec (§4.5): run the detectors over the filtered
subset, aggregate confidences, deduplicate by description, sort by descending
confidence, and report the total issue count alongside.  An empty filtered
subset yields zero root causes. -/
def rootCauseAnalyze (detectors : List Detector)
    (issueType line sev : Option String) (rows : List RCRow) : RootCauseResult :=
  let filtered := rows.filter (matchesRow issueType line sev)
  if filtered.isEmpty then { total_issues := 0, root_causes := [] }
  else
    { total_issues := filtered.length
      root_causes :=
        List.insertionSort causeOrder
          (dedupByDescription
            ((detectors.filterMap fun d => d filtered).map toRootCause)) }

/-- Modelled from the spec (§4.5, §7): the root-cause operation at the call
boundary.  Statistical edge cases such as an empty filtered subset are
legitimate empty results, not errors. -/
def rootCauseOp (detectors : List Detector)
    (issueType line sev : Option String) (rows : List RCRow) :
    Except EngineError RootCauseResult :=
  .ok (rootCauseAnalyze detectors issueType line sev rows)

/-! ## InsightRanker (spec.md §4.4)

The backend `analysis.py` is not in the source tree; the ranker below is
modelled from the spec.  It consumes trend magnitudes, correlation findings
(as absolute coefficients) and the anomaly summary, scores each insight on a
0–10 scale by the fixed rubric, derives severity from the score bands, and
sorts descending by score with ties broken by insertion order (trend, then
correlation, then anomaly — insertion sort is stable). -/

/-- Insight categories. -/
inductive InsightType where
  | trend
  | correlationSignal
  | anomalySignal
deriving DecidableEq, Repr

/-- A scored insight (spec.md §3). -/
structure Insight where
  title : String
  description : String
  type : InsightType
  severity : SeverityLevel
  score : ℚ
deriving DecidableEq, Repr

/-- Clamp a rational into `[0, 10]`. -/
def clamp10 (x : ℚ) : ℚ := min 10 (max 0 x)

/-- Build one insight from a raw rubric score: the score is kept in `[0,10]`
and the severity is derived from it by the fixed bands. -/
def mkInsight (title descr : String) (ty : InsightType) (rawScore : ℚ) : Insight :=
  { title := title
    description := descr
    type := ty
    severity := severityOfScore (clamp10 rawScore)
    score := clamp10 rawScore }

/-- Descending score order on insights. -/
def insightOrder (a b : Insight) : Prop := b.score ≤ a.score

instance : DecidableRel insightOrder :=
  fun a b => inferInstanceAs (Decidable (b.score ≤ a.score))

instance : IsTotal Insight insightOrder :=
  ⟨fun a b => le_total b.score a.score⟩

instance : IsTrans Insight insightOrder :=
  ⟨fun _ _ _ h1 h2 => le_trans h2 h1⟩

/-- Modelled from the spec (§4.4): the insights operation.  Trend insights
score by magnitude of change, correlation insights by absolute coefficient
scaled to 0–10, anomaly insights by the anomaly rate scaled against a
reference rate. -/
def generateInsights (trends : List (String × ℚ))
    (corrs : List (String × String × ℚ)) (rate referenceRate : ℚ) :
    List Insight :=
  let trendIns := trends.map fun t =>
    mkInsight ("Trend in " ++ t.1) "Significant change over the observed window"
      .trend (|t.2| * 10)
  let corrIns := corrs.map fun c =>
    mkInsight ("Correlation between " ++ c.1 ++ " and " ++ c.2.1)
      "Strong association between two numeric variables"
      .correlationSignal (|c.2.2| * 10)
  let anomalyIns :=
    [mkInsight "Anomalous records detected"
      "Share of records flagged by the outlier model"
      .anomalySignal (rate / referenceRate * 10)]
  List.insertionSort insightOrder (trendIns ++ corrIns ++ anomalyIns)

deriving instance DecidableEq for Except

/-! ## Sample data used to evaluate the model on concrete inputs -/

/-- Two perfectly correlated sample columns. -/
def sampleColumns : List NumColumn :=
  [{ name := "temperature", values := [some 1, some 2, some 3] },
   { name := "defect_count", values := [some 2, some 4, some 6] }]

/-- The finding the engine emits on `sampleColumns`: here
`num = 3·28 − 6·12 = 12` and `denSq = (3·14 − 36)·(3·56 − 144) = 144`, a
perfect correlation (`r² = 1`). -/
def sampleFinding : CorrelationFinding :=
  { variable1 := "temperature", variable2 := "defect_count"
    num := 12, denSq := 144, strength := .very_strong }

/-- Ten sample model scores. -/
def sampleScores : List ℚ := [0, 1, 2, 3, 4, 5, 6, 7, 8, 9]

/-- The anomalies result on `sampleScores` with decision threshold 5. -/
def sampleAnomalyResult : AnomalyResult :=
  { anomalies := [⟨0, 0⟩, ⟨1, 1⟩, ⟨2, 2⟩, ⟨3, 3⟩, ⟨4, 4⟩,
      ⟨5, 5⟩, ⟨6, 6⟩, ⟨7, 7⟩, ⟨8, 8⟩, ⟨9, 9⟩]
    anomaly_rate := 1/2 }

/-- A sample equipment detector that always fires on its input. -/
def sampleDetector : Detector := fun rows =>
  some { family := .equipment
         description := "Machine M1 overrepresented"
         rawExcess := 2
         sampleSize := rows.length
         finding := { family := .equipment, pattern := "High issue count on M1"
                      evidence := "M1 accounts for most filtered issues"
                      equipment := some "M1", issue_count := some 3 } }

/-- Two sample rows for the root-cause filter. -/
def sampleRows : List RCRow :=
  [{ issue_type := some "Dimensional", production_line := some "Line A"
     severity := some "High" },
   { issue_type := some "Surface", production_line := none, severity := none }]

/-- The root-cause result on `sampleRows` with no filters: both rows pass the
filter, the detector fires with raw excess 2 (clamped to 1) and sample size 2,
so the confidence is `1 · (2/10) = 1/5`. -/
def sampleRCResult : RootCauseResult :=
  { total_issues := 2
    root_causes :=
      [{ description := "Machine M1 overrepresented"
         confidence := 1/5
         findings := [{ family := .equipment, pattern := "High issue count on M1"
                        evidence := "M1 accounts for most filtered issues"
                        equipment := some "M1", issue_count := some 3 }] }] }

/-- A sample root cause of the equipment family with confidence 0.8. -/
def sampleRootCause : RootCause :=
  { description := "Machine M1 overrepresented"
    confidence := 8/10
    findings := [{ family := .equipment, pattern := "High issue count on M1"
                   evidence := "M1 accounts for most filtered issues"
                   equipment := some "M1", issue_count := some 3 }] }

/-- The first action suggested for `sampleRootCause` with no issue type. -/
def sampleAction : ActionItem :=
  { action := "Schedule equipment maintenance"
    description := "Inspect the flagged machine"
    priority := .high
    steps := ["Run diagnostics on the machine", "Calibrate and re-test"]
    estimated_impact := "Lower failure frequency on the flagged equipment" }

/-- The trend insight generated for a trend of magnitude 1/2: raw score 5,
severity medium. -/
def sampleInsight : Insight :=
  { title := "Trend in temperature"
    description := "Significant change over the observed window"
    type := .trend
    severity := .medium
    score := 5 }

/-! ## Band lemmas for the fixed classification thresholds -/

/-- The severity bands of `severityOfScore`, as mutually exclusive and
exhaustive characterizations. -/
lemma severityOfScore_bands (s : ℚ) :
    (severityOfScore s = .critical ↔ 8 ≤ s) ∧
    (severityOfScore s = .high ↔ 6 ≤ s ∧ s < 8) ∧
    (severityOfScore s = .medium ↔ 4 ≤ s ∧ s < 6) ∧
    (severityOfScore s = .low ↔ s < 4) := by
  unfold severityOfScore
  split_ifs with h1 h2 h3 <;>
    refine ⟨?_, ?_, ?_, ?_⟩ <;> simp <;>
    first
      | linarith
      | (constructor <;> linarith)
      | (constructor <;> intro hx <;> first | linarith | (exfalso; linarith))
      | (rintro ⟨hx, hy⟩; linarith)
      | (intro hx; linarith)

/-- The priority bands of `priorityOfConfidence`. -/
lemma priorityOfConfidence_bands (c : ℚ) :
    (priorityOfConfidence c = .high ↔ 7/10 ≤ c) ∧
    (priorityOfConfidence c = .medium ↔ 4/10 ≤ c ∧ c < 7/10) ∧
    (priorityOfConfidence c = .low ↔ c < 4/10) := by
  unfold priorityOfConfidence
  split_ifs with h1 h2 <;>
    refine ⟨?_, ?_, ?_⟩ <;> simp <;>
    first
      | linarith
      | (constructor <;> linarith)
      | (constructor <;> intro hx <;> first | linarith | (exfalso; linarith))
      | (rintro ⟨hx, hy⟩; linarith)
      | (intro hx; linarith)

/-- The strength bands of `classifyStrengthSq`, on the squared coefficient. -/
lemma classifyStrengthSq_bands (q : ℚ) :
    (classifyStrengthSq q = .very_strong ↔ 81/100 ≤ q) ∧
    (classifyStrengthSq q = .strong ↔ 49/100 ≤ q ∧ q < 81/100) ∧
    (classifyStrengthSq q = .moderate ↔ 25/100 ≤ q ∧ q < 49/100) ∧
    (classifyStrengthSq q = .weak ↔ q < 25/100) := by
  unfold classifyStrengthSq
  split_ifs with h1 h2 h3 <;>
    refine ⟨?_, ?_, ?_, ?_⟩ <;> simp <;>
    first
      | linarith
      | (constructor <;> linarith)
      | (constructor <;> intro hx <;> first | linarith | (exfalso; linarith))
      | (rintro ⟨hx, hy⟩; linarith)
      | (intro hx; linarith)

/-- Clamping into `[0,1]` stays in `[0,1]`. -/
lemma clamp01_mem (x : ℚ) : 0 ≤ clamp01 x ∧ clamp01 x ≤ 1 := by
  unfold clamp01
  constructor
  · exact le_min (by norm_num) (le_max_left 0 x)
  · exact min_le_left 1 _

/-- Clamping into `[0,10]` stays in `[0,10]`. -/
lemma clamp10_mem (x : ℚ) : 0 ≤ clamp10 x ∧ clamp10 x ≤ 10 := by
  unfold clamp10
  constructor
  · exact le_min (by norm_num) (le_max_left 0 x)
  · exact min_le_left 10 _

/-- Detector confidences lie in `[0,1]` (spec.md §4.5 invariant). -/
lemma confidenceOf_mem (r : ℚ) (n : ℕ) :
    0 ≤ confidenceOf r n ∧ confidenceOf r n ≤ 1 := by
  unfold confidenceOf
  have h1 := clamp01_mem r
  have h2 : (0:ℚ) ≤ min 1 ((n : ℚ) / (sampleFloor : ℚ)) :=
    le_min (by norm_num) (by positivity)
  have h3 : min 1 ((n : ℚ) / (sampleFloor : ℚ)) ≤ 1 := min_le_left _ _
  exact ⟨mul_nonneg h1.1 h2, mul_le_one₀ h1.2 h2 h3⟩

/-! ## Helper lemmas on the engine pipelines -/

/-- Elements surviving deduplication come from the input list. -/
lemma mem_of_mem_dedupAux {c : RootCause} :
    ∀ {seen : List String} {l : List RootCause},
      c ∈ dedupByDescrAux seen l → c ∈ l := by
  intro seen l
  induction l generalizing seen with
  | nil => intro h; exact absurd h (by simp [dedupByDescrAux])
  | cons a t ih =>
    intro h
    unfold dedupByDescrAux at h
    split at h
    · exact List.mem_cons_of_mem _ (ih h)
    · rcases List.mem_cons.mp h with rfl | h
      · exact List.mem_cons_self _ _
      · exact List.mem_cons_of_mem _ (ih h)

/-- Elements surviving deduplication come from the input list. -/
lemma mem_of_mem_dedup {c : RootCause} {l : List RootCause}
    (h : c ∈ dedupByDescription l) : c ∈ l :=
  mem_of_mem_dedupAux h

/-- In a list sorted by descending confidence, the head dominates every
element. -/
lemma head_max_of_sorted {l : List RootCause} (h : l.Pairwise causeOrder) :
    ∀ c ∈ l, c.confidence ≤ l.headI.confidence := by
  cases l with
  | nil => intro c hc; exact absurd hc (by simp)
  | cons a t =>
    intro c hc
    rcases List.mem_cons.mp hc with rfl | hc
    · exact le_refl _
    · exact (List.pairwise_cons.mp h).1 c hc

/-- The actions request recorded by `handleAnalyze` is exactly the head of
the returned root-cause list. -/
lemma handleAnalyze_snd_eq (st : RCComponentState) (resp : RootCauseResult)
    (suggest : RootCause → Option String → List ActionItem) (issueType : Option String) :
    (handleAnalyze st resp suggest issueType).2 = resp.root_causes.head? := by
  cases h : resp.root_causes <;> simp [handleAnalyze, h]

/-- Every returned root cause of `rootCauseAnalyze` is built by
`toRootCause` from some detector signal. -/
lemma mem_rootCauseAnalyze {detectors : List Detector}
    {issueType line sev : Option String} {rows : List RCRow} {c : RootCause}
    (h : c ∈ (rootCauseAnalyze detectors issueType line sev rows).root_causes) :
    ∃ s : DetectorSignal, c = toRootCause s := by
  unfold rootCauseAnalyze at h
  by_cases he : (rows.filter (matchesRow issueType line sev)).isEmpty
  · simp [he] at h
  · simp only [he, if_false] at h
    have h1 : c ∈ List.insertionSort causeOrder
        (dedupByDescription
          ((detectors.filterMap fun d =>
            d (rows.filter (matchesRow issueType line sev))).map toRootCause)) := h
    rw [List.mem_insertionSort] at h1
    rcases List.mem_map.mp (mem_of_mem_dedup h1) with ⟨s, _, rfl⟩
    exact ⟨s, rfl⟩

/-- The root-cause list returned by the engine is sorted by
non-increasing confidence. -/
lemma rootCauseAnalyze_causes_sorted (detectors : List Detector)
    (issueType line sev : Option String) (rows : List RCRow) :
    (rootCauseAnalyze detectors issueType line sev rows).root_causes.Pairwise
      causeOrder := by
  unfold rootCauseAnalyze
  by_cases he : (rows.filter (matchesRow issueType line sev)).isEmpty
  · simp [he]
  · simp only [he, if_false]
    exact List.sorted_insertionSort causeOrder _

/-- Every generated insight has its score in `[0,10]` and its severity
derived from the score. -/
lemma generateInsights_mem_spec {trends : List (String × ℚ)}
    {corrs : List (String × String × ℚ)} {rate referenceRate : ℚ} {i : Insight}
    (h : i ∈ generateInsights trends corrs rate referenceRate) :
    (0 ≤ i.score ∧ i.score ≤ 10) ∧ i.severity = severityOfScore i.score := by
  unfold generateInsights at h
  rw [List.mem_insertionSort] at h
  simp only [List.mem_append, List.mem_map, List.mem_singleton] at h
  rcases h with (⟨t, -, rfl⟩ | ⟨c, -, rfl⟩) | rfl <;>
    exact ⟨clamp10_mem _, rfl⟩

/-- Every suggested action carries the priority derived from the RootCause
confidence. -/
lemma mem_suggestActions_priority {rc : RootCause} {issueType : Option String}
    {a : ActionItem} (h : a ∈ suggestActions rc issueType) :
    a.priority = priorityOfConfidence rc.confidence := by
  unfold suggestActions at h
  cases hf : rc.dominantFamily with
  | none => rw [hf] at h; exact absurd h (by simp)
  | some fam =>
    rw [hf] at h
    rcases List.mem_map.mp h with ⟨t, -, rfl⟩
    rfl

/-! ## Correlation helper lemmas -/

/-- Pairing the observations in the opposite order swaps each pair. -/
lemma pairedObs_swap (xs ys : List Cell) :
    pairedObs ys xs = (pairedObs xs ys).map Prod.swap := by
  unfold pairedObs
  induction xs generalizing ys with
  | nil => cases ys <;> simp
  | cons x xt ih =>
    cases ys with
    | nil => simp
    | cons y yt =>
      simp only [List.zip_cons_cons, List.filterMap_cons]
      cases x <;> cases y <;> simp [ih yt]

/-- First-coordinate sum after a swap is the second-coordinate sum. -/
lemma sumFst_swap (l : List (ℚ × ℚ)) : sumFst (l.map Prod.swap) = sumSnd l := by
  unfold sumFst sumSnd
  rw [List.map_map]
  exact congrArg List.sum (List.map_congr_left fun p _ => rfl)

/-- Second-coordinate sum after a swap is the first-coordinate sum. -/
lemma sumSnd_swap (l : List (ℚ × ℚ)) : sumSnd (l.map Prod.swap) = sumFst l := by
  unfold sumFst sumSnd
  rw [List.map_map]
  exact congrArg List.sum (List.map_congr_left fun p _ => rfl)

/-- The product sum is invariant under swapping. -/
lemma sumMul_swap (l : List (ℚ × ℚ)) : sumMul (l.map Prod.swap) = sumMul l := by
  unfold sumMul
  rw [List.map_map]
  exact congrArg List.sum (List.map_congr_left fun p _ => mul_comm p.2 p.1)

/-- First-coordinate square sum after a swap. -/
lemma sumFstSq_swap (l : List (ℚ × ℚ)) : sumFstSq (l.map Prod.swap) = sumSndSq l := by
  unfold sumFstSq sumSndSq
  rw [List.map_map]
  exact congrArg List.sum (List.map_congr_left fun p _ => rfl)

/-- Second-coordinate square sum after a swap. -/
lemma sumSndSq_swap (l : List (ℚ × ℚ)) : sumSndSq (l.map Prod.swap) = sumFstSq l := by
  unfold sumFstSq sumSndSq
  rw [List.map_map]
  exact congrArg List.sum (List.map_congr_left fun p _ => rfl)

/-- The Pearson numerator is invariant under swapping. -/
lemma pearsonNum_swap (l : List (ℚ × ℚ)) :
    pearsonNum (l.map Prod.swap) = pearsonNum l := by
  unfold pearsonNum
  rw [List.length_map, sumMul_swap, sumFst_swap, sumSnd_swap]
  ring

/-- The first scaled variance after a swap is the second one. -/
lemma pearsonVarFst_swap (l : List (ℚ × ℚ)) :
    pearsonVarFst (l.map Prod.swap) = pearsonVarSnd l := by
  unfold pearsonVarFst pearsonVarSnd
  rw [List.length_map, sumFstSq_swap, sumFst_swap]

/-- The second scaled variance after a swap is the first one. -/
lemma pearsonVarSnd_swap (l : List (ℚ × ℚ)) :
    pearsonVarSnd (l.map Prod.swap) = pearsonVarFst l := by
  unfold pearsonVarFst pearsonVarSnd
  rw [List.length_map, sumSndSq_swap, sumSnd_swap]

/-- The Pearson coefficient is invariant under swapping the coordinates. -/
lemma pearson_swap (l : List (ℚ × ℚ)) : pearson (l.map Prod.swap) = pearson l := by
  unfold pearson
  rw [pearsonNum_swap, pearsonVarFst_swap, pearsonVarSnd_swap,
    mul_comm ((pearsonVarSnd l : ℚ) : ℝ) ((pearsonVarFst l : ℚ) : ℝ)]

/-- Pearson correlation of two columns is symmetric. -/
lemma correlation_symm (xs ys : List Cell) :
    correlation xs ys = correlation ys xs := by
  unfold correlation
  rw [pairedObs_swap xs ys, pearson_swap]

/-- Anatomy of a successful `mkFinding`: positive variances, the recorded
fields, and the threshold test. -/
lemma mkFinding_eq_some {t : ℚ} {c d : NumColumn} {f : CorrelationFinding}
    (h : mkFinding t c d = some f) :
    0 < pearsonVarFst (pairedObs c.values d.values) ∧
    0 < pearsonVarSnd (pairedObs c.values d.values) ∧
    f = { variable1 := c.name
          variable2 := d.name
          num := pearsonNum (pairedObs c.values d.values)
          denSq := pearsonVarFst (pairedObs c.values d.values) *
            pearsonVarSnd (pairedObs c.values d.values)
          strength := classifyStrengthSq
            (pearsonNum (pairedObs c.values d.values) ^ 2 /
              (pearsonVarFst (pairedObs c.values d.values) *
                pearsonVarSnd (pairedObs c.values d.values))) } ∧
    t ^ 2 * (pearsonVarFst (pairedObs c.values d.values) *
      pearsonVarSnd (pairedObs c.values d.values)) ≤
      pearsonNum (pairedObs c.values d.values) ^ 2 := by
  unfold mkFinding at h
  simp only at h
  split_ifs at h with h1 h2 h3
  push_neg at h2
  injection h with h4
  exact ⟨h2.1, h2.2, h4.symm, h3⟩

/-- Every emitted finding has a positive squared denominator, a strength
classified from its squared coefficient, and satisfies the threshold test. -/
lemma mem_correlationFindings_spec {cols : List NumColumn} {t : ℚ}
    {f : CorrelationFinding} (h : f ∈ correlationFindings cols t) :
    0 < f.denSq ∧ f.strength = classifyStrengthSq f.rSq ∧
    t ^ 2 * f.denSq ≤ f.num ^ 2 := by
  unfold correlationFindings at h
  rw [List.mem_insertionSort] at h
  unfold rawFindings at h
  rcases List.mem_filterMap.mp h with ⟨p, -, hp⟩
  obtain ⟨h1, h2, rfl, h4⟩ := mkFinding_eq_some hp
  exact ⟨mul_pos h1 h2, rfl, h4⟩

/-- For a finding with positive squared denominator, the absolute coefficient
is the square root of the squared coefficient. -/
lemma abs_coefficient_eq_sqrt {f : CorrelationFinding} (h : 0 < f.denSq) :
    |f.coefficient| = Real.sqrt ((f.rSq : ℚ) : ℝ) := by
  have hd : (0:ℝ) < ((f.denSq : ℚ) : ℝ) := by exact_mod_cast h
  unfold CorrelationFinding.coefficient CorrelationFinding.rSq
  rw [abs_div, abs_of_nonneg (Real.sqrt_nonneg _)]
  have hc : ((f.num ^ 2 / f.denSq : ℚ) : ℝ) =
      ((f.num : ℚ) : ℝ) ^ 2 / ((f.denSq : ℚ) : ℝ) := by
    push_cast
    ring
  rw [hc, Real.sqrt_div (sq_nonneg _), Real.sqrt_sq_eq_abs]

/-- Threshold comparisons on the absolute coefficient are equivalent to
comparisons of squares on the rational side. -/
lemma abs_coefficient_le_iff {f : CorrelationFinding} (hden : 0 < f.denSq)
    (a : ℚ) (ha : 0 ≤ a) :
    ((a : ℚ) : ℝ) ≤ |f.coefficient| ↔ a ^ 2 ≤ f.rSq := by
  have h0 : (0:ℝ) ≤ ((f.rSq : ℚ) : ℝ) := by
    have : 0 ≤ f.rSq := div_nonneg (sq_nonneg _) hden.le
    exact_mod_cast this
  rw [abs_coefficient_eq_sqrt hden, Real.le_sqrt (by exact_mod_cast ha) h0]
  exact_mod_cast Iff.rfl

/-- Both components of a column pair belong to the column list. -/
lemma mem_columnPairs_mem : ∀ {l : List NumColumn} {p : NumColumn × NumColumn},
    p ∈ columnPairs l → p.1 ∈ l ∧ p.2 ∈ l := by
  intro l
  induction l with
  | nil => intro p h; exact absurd h (by simp [columnPairs])
  | cons c rest ih =>
    intro p h
    unfold columnPairs at h
    rcases List.mem_append.mp h with h | h
    · rcases List.mem_map.mp h with ⟨d, hd, rfl⟩
      exact ⟨List.mem_cons_self _ _, List.mem_cons_of_mem _ hd⟩
    · obtain ⟨h1, h2⟩ := ih h
      exact ⟨List.mem_cons_of_mem _ h1, List.mem_cons_of_mem _ h2⟩

/-- With pairwise-distinct column names, the enumerated column pairs denote
pairwise-distinct unordered variable pairs. -/
lemma columnPairs_pairwise_distinct : ∀ {l : List NumColumn},
    (l.map NumColumn.name).Nodup →
    (columnPairs l).Pairwise unorderedDistinct := by
  intro l
  induction l with
  | nil => intro _; simp [columnPairs]
  | cons c rest ih =>
    intro h
    rw [List.map_cons, List.nodup_cons] at h
    obtain ⟨hc, hrest⟩ := h
    unfold columnPairs
    rw [List.pairwise_append]
    refine ⟨?_, ih hrest, ?_⟩
    · rw [List.pairwise_map]
      have hnames : rest.Pairwise (fun a b => a.name ≠ b.name) :=
        List.pairwise_map.mp hrest
      refine hnames.imp_of_mem ?_
      intro d1 d2 h1 h2 hne hcon
      rcases hcon with ⟨-, h12⟩ | ⟨hcd, -⟩
      · exact hne h12
      · exact hc (by rw [hcd]; exact List.mem_map_of_mem NumColumn.name h2)
    · intro p hp q hq
      rcases List.mem_map.mp hp with ⟨d, -, rfl⟩
      obtain ⟨hq1, hq2⟩ := mem_columnPairs_mem hq
      intro hcon
      rcases hcon with ⟨h1, -⟩ | ⟨h1, -⟩
      · exact hc (by rw [h1]; exact List.mem_map_of_mem NumColumn.name hq1)
      · exact hc (by rw [h1]; exact List.mem_map_of_mem NumColumn.name hq2)

/-- With pairwise-distinct column names, no two raw findings share an
unordered variable pair (in particular neither ordering is duplicated). -/
lemma rawFindings_pairwise_distinct {cols : List NumColumn} {t : ℚ}
    (h : (cols.map NumColumn.name).Nodup) :
    (rawFindings cols t).Pairwise (fun f g =>
      ¬((f.variable1 = g.variable1 ∧ f.variable2 = g.variable2) ∨
        (f.variable1 = g.variable2 ∧ f.variable2 = g.variable1))) := by
  unfold rawFindings
  refine List.Pairwise.filterMap _ ?_ (columnPairs_pairwise_distinct h)
  intro p q hpq f hf g hg
  obtain ⟨-, -, rfl, -⟩ := mkFinding_eq_some (Option.mem_def.mp hf)
  obtain ⟨-, -, rfl, -⟩ := mkFinding_eq_some (Option.mem_def.mp hg)
  exact fun hcon => hpq hcon

/-- The unordered-distinctness of findings survives the final sort. -/
lemma correlationFindings_pairwise_distinct {cols : List NumColumn} {t : ℚ}
    (h : (cols.map NumColumn.name).Nodup) :
    (correlationFindings cols t).Pairwise (fun f g =>
      ¬((f.variable1 = g.variable1 ∧ f.variable2 = g.variable2) ∨
        (f.variable1 = g.variable2 ∧ f.variable2 = g.variable1))) := by
  unfold correlationFindings
  refine (rawFindings_pairwise_distinct h).perm
    (List.perm_insertionSort corrOrder _).symm ?_
  intro x y hxy hcon
  apply hxy
  rcases hcon with ⟨a, b⟩ | ⟨a, b⟩
  · exact Or.inl ⟨a.symm, b.symm⟩
  · exact Or.inr ⟨b.symm, a.symm⟩

/-- The emitted finding list is ordered by descending absolute
coefficient. -/
lemma correlationFindings_sorted_abs (cols : List NumColumn) (t : ℚ) :
    (correlationFindings cols t).Pairwise
      (fun f g => |g.coefficient| ≤ |f.coefficient|) := by
  have hs : (correlationFindings cols t).Pairwise corrOrder :=
    List.sorted_insertionSort corrOrder _
  refine hs.imp_of_mem ?_
  intro f g hf hg hfg
  obtain ⟨hdf, -, -⟩ := mem_correlationFindings_spec hf
  obtain ⟨hdg, -, -⟩ := mem_correlationFindings_spec hg
  rw [abs_coefficient_eq_sqrt hdf, abs_coefficient_eq_sqrt hdg]
  exact Real.sqrt_le_sqrt (by exact_mod_cast hfg)

/-! ## Claim theorems -/

/-- C1: for every dataset accepted by the anomalies operation, the returned
anomaly rate is the fraction of rows whose model score lies below the decision
threshold, it lies in `[0,1]`, and it is the value the dashboard shows as the
Anomaly Rate. -/
theorem anomalies_rate_fraction_bounded (scores : List ℚ) (numericColumnCount : ℕ)
    (decisionThreshold : ℚ) (limit : ℕ) (res : AnomalyResult)
    (h : anomaliesOp scores numericColumnCount decisionThreshold limit = .ok res) :
    res.anomaly_rate =
      ((scores.filter fun s => s < decisionThreshold).length : ℚ) /
        (scores.length : ℚ) ∧
    0 ≤ res.anomaly_rate ∧ res.anomaly_rate ≤ 1 ∧
    shownAnomalyRate (some res.anomaly_rate) = res.anomaly_rate := by
  unfold anomaliesOp at h
  by_cases hcond : numericColumnCount < 2 ∨ scores.length < 10
  · rw [if_pos hcond] at h
    exact Except.noConfusion h
  · rw [if_neg hcond] at h
    push_neg at hcond
    obtain ⟨-, hlen⟩ := hcond
    injection h with h2
    subst h2
    refine ⟨rfl, ?_, ?_, rfl⟩
    · unfold anomalyRate; positivity
    · unfold anomalyRate
      have hpos : (0:ℚ) < (scores.length : ℚ) := by
        exact_mod_cast Nat.lt_of_lt_of_le (by norm_num) hlen
      rw [div_le_one hpos]
      exact_mod_cast List.length_filter_le _ _

/-- C2: the root-cause list is sorted by non-increasing confidence, every
confidence lies in `[0,1]`, the element at index 0 has the maximal
confidence, and it is exactly the RootCause for which the dashboard issues
the actions request. -/
theorem rootCauses_sorted_bounded_head (detectors : List Detector)
    (issueType line sev : Option String) (rows : List RCRow) (res : RootCauseResult)
    (h : rootCauseAnalyze detectors issueType line sev rows = res) :
    res.root_causes.Pairwise (fun a b => b.confidence ≤ a.confidence) ∧
    (∀ c ∈ res.root_causes, 0 ≤ c.confidence ∧ c.confidence ≤ 1) ∧
    (∀ c ∈ res.root_causes, c.confidence ≤ res.root_causes.headI.confidence) ∧
    (∀ (st : RCComponentState)
        (suggest : RootCause → Option String → List ActionItem),
      (handleAnalyze st res suggest issueType).2 = res.root_causes.head?) := by
  subst h
  have hs := rootCauseAnalyze_causes_sorted detectors issueType line sev rows
  refine ⟨hs, fun c hc => ?_, head_max_of_sorted hs, fun st suggest =>
    handleAnalyze_snd_eq st _ suggest issueType⟩
  obtain ⟨s, rfl⟩ := mem_rootCauseAnalyze hc
  exact confidenceOf_mem s.rawExcess s.sampleSize

/-- C4: every generated insight has a score in `[0,10]` and a severity
derived from the score by the fixed bands; severity takes no other value. -/
theorem insights_score_bounded_severity_bands (trends : List (String × ℚ))
    (corrs : List (String × String × ℚ)) (rate referenceRate : ℚ) (i : Insight)
    (h : i ∈ generateInsights trends corrs rate referenceRate) :
    (0 ≤ i.score ∧ i.score ≤ 10) ∧
    (i.severity = .critical ↔ 8 ≤ i.score) ∧
    (i.severity = .high ↔ 6 ≤ i.score ∧ i.score < 8) ∧
    (i.severity = .medium ↔ 4 ≤ i.score ∧ i.score < 6) ∧
    (i.severity = .low ↔ i.score < 4) ∧
    (i.severity = .critical ∨ i.severity = .high ∨ i.severity = .medium ∨
      i.severity = .low) := by
  obtain ⟨hb, hsev⟩ := generateInsights_mem_spec h
  obtain ⟨b1, b2, b3, b4⟩ := severityOfScore_bands i.score
  rw [hsev]
  refine ⟨hb, b1, b2, b3, b4, ?_⟩
  cases severityOfScore i.score <;> simp

/-- C5: every action produced from a RootCause carries the priority derived
from that RootCause's confidence by the fixed bands (≥0.7 high, ≥0.4 medium,
else low), and no other value. -/
theorem actions_priority_bands (rc : RootCause) (issueType : Option String)
    (a : ActionItem) (h : a ∈ suggestActions rc issueType) :
    (a.priority = .high ↔ 7/10 ≤ rc.confidence) ∧
    (a.priority = .medium ↔ 4/10 ≤ rc.confidence ∧ rc.confidence < 7/10) ∧
    (a.priority = .low ↔ rc.confidence < 4/10) ∧
    (a.priority = .high ∨ a.priority = .medium ∨ a.priority = .low) := by
  have hp : a.priority = priorityOfConfidence rc.confidence :=
    mem_suggestActions_priority h
  obtain ⟨b1, b2, b3⟩ := priorityOfConfidence_bands rc.confidence
  rw [hp]
  refine ⟨b1, b2, b3, ?_⟩
  cases priorityOfConfidence rc.confidence <;> simp

/-- C8: when the filtered subset is empty the root-cause operation returns
`total_issues = 0` and an empty root-cause list, with no error. -/
theorem rootCause_empty_filter_no_error (detectors : List Detector)
    (issueType line sev : Option String) (rows : List RCRow)
    (h : rows.filter (matchesRow issueType line sev) = []) :
    rootCauseOp detectors issueType line sev rows =
      .ok { total_issues := 0, root_causes := [] } := by
  unfold rootCauseOp rootCauseAnalyze
  simp [h]

/-- C9: the dashboard issues the suggested-actions request exactly when the
analysis response has a non-empty root-cause list, always for the element at
index 0; when the list is empty the previously displayed actions are left
unchanged. -/
theorem handleAnalyze_request_flow (st : RCComponentState) (resp : RootCauseResult)
    (suggest : RootCause → Option String → List ActionItem)
    (issueType : Option String) :
    ((handleAnalyze st resp suggest issueType).2 = resp.root_causes.head?) ∧
    ((handleAnalyze st resp suggest issueType).2 = none ↔
      resp.root_causes = []) ∧
    (∀ rc, (handleAnalyze st resp suggest issueType).2 = some rc →
      rc = resp.root_causes.headI ∧
      (handleAnalyze st resp suggest issueType).1.actions = suggest rc issueType) ∧
    (resp.root_causes = [] →
      (handleAnalyze st resp suggest issueType).1.actions = st.actions) := by
  cases h : resp.root_causes with
  | nil => simp [handleAnalyze, h]
  | cons c t => refine ⟨?_, ?_, ?_, ?_⟩ <;> simp [handleAnalyze, h]

/-- C10: the correlation view renders exactly the first ten findings of the
response list, in order; findings at index 10 or beyond are never
displayed. -/
theorem renderedCorrelations_first_ten (l : List CorrDisplay) :
    renderedCorrelations l = l.take 10 ∧
    (∀ i, i < 10 → (renderedCorrelations l)[i]? = l[i]?) ∧
    (∀ i, 10 ≤ i → (renderedCorrelations l)[i]? = none) := by
  refine ⟨rfl, fun i hi => ?_, fun i hi => ?_⟩
  · simp [renderedCorrelations, List.getElem?_take, hi]
  · simp only [renderedCorrelations, List.getElem?_take]
    rw [if_neg (by omega)]

/-- C3: the strength of every emitted correlation finding is determined by
the fixed bands on the absolute coefficient — very_strong iff |r| ≥ 0.9,
strong iff 0.7 ≤ |r| < 0.9, moderate iff 0.5 ≤ |r| < 0.7, weak otherwise —
and takes no other value. -/
theorem correlation_strength_band_of_coefficient (cols : List NumColumn) (t : ℚ)
    (f : CorrelationFinding) (h : f ∈ correlationFindings cols t) :
    (f.strength = .very_strong ↔ ((9/10 : ℚ) : ℝ) ≤ |f.coefficient|) ∧
    (f.strength = .strong ↔
      ((7/10 : ℚ) : ℝ) ≤ |f.coefficient| ∧ |f.coefficient| < ((9/10 : ℚ) : ℝ)) ∧
    (f.strength = .moderate ↔
      ((5/10 : ℚ) : ℝ) ≤ |f.coefficient| ∧ |f.coefficient| < ((7/10 : ℚ) : ℝ)) ∧
    (f.strength = .weak ↔ |f.coefficient| < ((5/10 : ℚ) : ℝ)) ∧
    (f.strength = .weak ∨ f.strength = .moderate ∨ f.strength = .strong ∨
      f.strength = .very_strong) := by
  obtain ⟨hden, hstr, -⟩ := mem_correlationFindings_spec h
  have b9 : ((9/10 : ℚ) : ℝ) ≤ |f.coefficient| ↔ 81/100 ≤ f.rSq :=
    (abs_coefficient_le_iff hden (9/10) (by norm_num)).trans (by norm_num)
  have b7 : ((7/10 : ℚ) : ℝ) ≤ |f.coefficient| ↔ 49/100 ≤ f.rSq :=
    (abs_coefficient_le_iff hden (7/10) (by norm_num)).trans (by norm_num)
  have b5 : ((5/10 : ℚ) : ℝ) ≤ |f.coefficient| ↔ 25/100 ≤ f.rSq :=
    (abs_coefficient_le_iff hden (5/10) (by norm_num)).trans (by norm_num)
  have l9 : |f.coefficient| < ((9/10 : ℚ) : ℝ) ↔ f.rSq < 81/100 := by
    rw [lt_iff_not_le, b9, not_le]
  have l7 : |f.coefficient| < ((7/10 : ℚ) : ℝ) ↔ f.rSq < 49/100 := by
    rw [lt_iff_not_le, b7, not_le]
  have l5 : |f.coefficient| < ((5/10 : ℚ) : ℝ) ↔ f.rSq < 25/100 := by
    rw [lt_iff_not_le, b5, not_le]
  obtain ⟨s1, s2, s3, s4⟩ := classifyStrengthSq_bands f.rSq
  rw [hstr]
  refine ⟨?_, ?_, ?_, ?_, ?_⟩
  · rw [s1, b9]
  · rw [s2]
    exact and_congr b7.symm l9.symm
  · rw [s3]
    exact and_congr b5.symm l7.symm
  · rw [s4, l5]
  · cases classifyStrengthSq f.rSq <;> simp

/-- C6: the API client uses threshold 0.5 when the caller supplies none, and
every finding emitted at that default threshold has absolute coefficient at
least 0.5. -/
theorem default_threshold_and_emission (cols : List NumColumn)
    (f : CorrelationFinding)
    (h : f ∈ correlationFindings cols (getCorrelationsThreshold none)) :
    getCorrelationsThreshold none = 1/2 ∧
    (((1:ℚ)/2 : ℚ) : ℝ) ≤ |f.coefficient| := by
  obtain ⟨hden, -, hthr⟩ := mem_correlationFindings_spec h
  refine ⟨rfl, ?_⟩
  rw [abs_coefficient_le_iff hden (1/2) (by norm_num)]
  have ht : ((1:ℚ)/2) ^ 2 * f.denSq ≤ f.num ^ 2 := hthr
  unfold CorrelationFinding.rSq
  rw [le_div_iff₀ hden]
  linarith

/-- C7: Pearson correlation of two columns is symmetric, the engine never
emits two findings for the same unordered pair (in particular never both
orderings), and the finding list is ordered by descending absolute
coefficient. -/
theorem correlations_symm_unique_sorted (cols : List NumColumn) (t : ℚ)
    (hnames : (cols.map NumColumn.name).Nodup) :
    (∀ xs ys : List Cell, correlation xs ys = correlation ys xs) ∧
    ((correlationFindings cols t).Pairwise fun f g =>
      ¬((f.variable1 = g.variable1 ∧ f.variable2 = g.variable2) ∨
        (f.variable1 = g.variable2 ∧ f.variable2 = g.variable1))) ∧
    ((correlationFindings cols t).Pairwise fun f g =>
      |g.coefficient| ≤ |f.coefficient|) :=
  ⟨correlation_symm, correlationFindings_pairwise_distinct hnames,
    correlationFindings_sorted_abs cols t⟩

section

attribute [local semireducible] Rat.mul Rat.inv Rat.add Rat.sub

/-- Witness for C1 at the ten sample scores with decision threshold 5. -/
theorem anomalies_rate_fraction_bounded_witness :
    anomaliesOp sampleScores 3 5 10 = .ok sampleAnomalyResult ∧
    (sampleAnomalyResult.anomaly_rate =
      ((sampleScores.filter fun s => s < 5).length : ℚ) /
        (sampleScores.length : ℚ) ∧
    0 ≤ sampleAnomalyResult.anomaly_rate ∧ sampleAnomalyResult.anomaly_rate ≤ 1 ∧
    shownAnomalyRate (some sampleAnomalyResult.anomaly_rate) =
      sampleAnomalyResult.anomaly_rate) :=
  ⟨by decide,
    anomalies_rate_fraction_bounded sampleScores 3 5 10 sampleAnomalyResult
      (by decide)⟩

/-- Witness for C2 at the sample detector and rows. -/
theorem rootCauses_sorted_bounded_head_witness :
    rootCauseAnalyze [sampleDetector] none none none sampleRows = sampleRCResult ∧
    (sampleRCResult.root_causes.Pairwise
        (fun a b => b.confidence ≤ a.confidence) ∧
    (∀ c ∈ sampleRCResult.root_causes, 0 ≤ c.confidence ∧ c.confidence ≤ 1) ∧
    (∀ c ∈ sampleRCResult.root_causes,
      c.confidence ≤ sampleRCResult.root_causes.headI.confidence) ∧
    (∀ (st : RCComponentState)
        (suggest : RootCause → Option String → List ActionItem),
      (handleAnalyze st sampleRCResult suggest none).2 =
        sampleRCResult.root_causes.head?)) :=
  ⟨by decide,
    rootCauses_sorted_bounded_head [sampleDetector] none none none sampleRows
      sampleRCResult (by decide)⟩

/-- Witness for C4 at one trend of magnitude 1/2. -/
theorem insights_score_bounded_severity_bands_witness :
    sampleInsight ∈
      generateInsights [("temperature", 1/2)]
        ([] : List (String × String × ℚ)) (1/10) 1 ∧
    ((0 ≤ sampleInsight.score ∧ sampleInsight.score ≤ 10) ∧
    (sampleInsight.severity = .critical ↔ 8 ≤ sampleInsight.score) ∧
    (sampleInsight.severity = .high ↔
      6 ≤ sampleInsight.score ∧ sampleInsight.score < 8) ∧
    (sampleInsight.severity = .medium ↔
      4 ≤ sampleInsight.score ∧ sampleInsight.score < 6) ∧
    (sampleInsight.severity = .low ↔ sampleInsight.score < 4) ∧
    (sampleInsight.severity = .critical ∨ sampleInsight.severity = .high ∨
      sampleInsight.severity = .medium ∨ sampleInsight.severity = .low)) :=
  ⟨by decide,
    insights_score_bounded_severity_bands [("temperature", 1/2)]
      ([] : List (String × String × ℚ)) (1/10) 1 sampleInsight (by decide)⟩

/-- Witness for C5 at the sample root cause of confidence 0.8. -/
theorem actions_priority_bands_witness :
    sampleAction ∈ suggestActions sampleRootCause none ∧
    ((sampleAction.priority = .high ↔ 7/10 ≤ sampleRootCause.confidence) ∧
    (sampleAction.priority = .medium ↔
      4/10 ≤ sampleRootCause.confidence ∧ sampleRootCause.confidence < 7/10) ∧
    (sampleAction.priority = .low ↔ sampleRootCause.confidence < 4/10) ∧
    (sampleAction.priority = .high ∨ sampleAction.priority = .medium ∨
      sampleAction.priority = .low)) :=
  ⟨by decide,
    actions_priority_bands sampleRootCause none sampleAction (by decide)⟩

/-- Witness for C8: an issue-type filter matching no sample row. -/
theorem rootCause_empty_filter_no_error_witness :
    sampleRows.filter (matchesRow (some "Material") none none) = [] ∧
    rootCauseOp [sampleDetector] (some "Material") none none sampleRows =
      .ok { total_issues := 0, root_causes := [] } :=
  ⟨by decide,
    rootCause_empty_filter_no_error [sampleDetector] (some "Material") none none
      sampleRows (by decide)⟩

/-- Witness for C9 at the sample analysis response. -/
theorem handleAnalyze_request_flow_witness :
    ((handleAnalyze ⟨none, []⟩ sampleRCResult suggestActions none).2 =
      sampleRCResult.root_causes.head?) ∧
    ((handleAnalyze ⟨none, []⟩ sampleRCResult suggestActions none).2 = none ↔
      sampleRCResult.root_causes = []) ∧
    (∀ rc, (handleAnalyze ⟨none, []⟩ sampleRCResult suggestActions none).2 =
        some rc →
      rc = sampleRCResult.root_causes.headI ∧
      (handleAnalyze ⟨none, []⟩ sampleRCResult suggestActions none).1.actions =
        suggestActions rc none) ∧
    (sampleRCResult.root_causes = [] →
      (handleAnalyze ⟨none, []⟩ sampleRCResult suggestActions none).1.actions =
        ([] : List ActionItem)) :=
  handleAnalyze_request_flow ⟨none, []⟩ sampleRCResult suggestActions none

/-- Witness for C3 at the perfectly correlated sample columns. -/
theorem correlation_strength_band_of_coefficient_witness :
    sampleFinding ∈ correlationFindings sampleColumns (1/2) ∧
    ((sampleFinding.strength = .very_strong ↔
      ((9/10 : ℚ) : ℝ) ≤ |sampleFinding.coefficient|) ∧
    (sampleFinding.strength = .strong ↔
      ((7/10 : ℚ) : ℝ) ≤ |sampleFinding.coefficient| ∧
        |sampleFinding.coefficient| < ((9/10 : ℚ) : ℝ)) ∧
    (sampleFinding.strength = .moderate ↔
      ((5/10 : ℚ) : ℝ) ≤ |sampleFinding.coefficient| ∧
        |sampleFinding.coefficient| < ((7/10 : ℚ) : ℝ)) ∧
    (sampleFinding.strength = .weak ↔
      |sampleFinding.coefficient| < ((5/10 : ℚ) : ℝ)) ∧
    (sampleFinding.strength = .weak ∨ sampleFinding.strength = .moderate ∨
      sampleFinding.strength = .strong ∨
      sampleFinding.strength = .very_strong)) :=
  ⟨by decide,
    correlation_strength_band_of_coefficient sampleColumns (1/2) sampleFinding
      (by decide)⟩

/-- Witness for C6 at the default threshold on the sample columns. -/
theorem default_threshold_and_emission_witness :
    sampleFinding ∈
      correlationFindings sampleColumns (getCorrelationsThreshold none) ∧
    (getCorrelationsThreshold none = 1/2 ∧
      (((1:ℚ)/2 : ℚ) : ℝ) ≤ |sampleFinding.coefficient|) :=
  ⟨by decide,
    default_threshold_and_emission sampleColumns sampleFinding (by decide)⟩

/-- Witness for C7 at the sample columns, which have distinct names. -/
theorem correlations_symm_unique_sorted_witness :
    (sampleColumns.map NumColumn.name).Nodup ∧
    ((∀ xs ys : List Cell, correlation xs ys = correlation ys xs) ∧
    ((correlationFindings sampleColumns (1/2)).Pairwise fun f g =>
      ¬((f.variable1 = g.variable1 ∧ f.variable2 = g.variable2) ∨
        (f.variable1 = g.variable2 ∧ f.variable2 = g.variable1))) ∧
    ((correlationFindings sampleColumns (1/2)).Pairwise fun f g =>
      |g.coefficient| ≤ |f.coefficient|)) :=
  ⟨by decide,
    correlations_symm_unique_sorted sampleColumns (1/2) (by decide)⟩

/-- Witness for C10 at a one-element response list. -/
theorem renderedCorrelations_first_ten_witness :
    renderedCorrelations [⟨"temperature", "defect_count", 1/2, "moderate"⟩] =
      List.take 10 [⟨"temperature", "defect_count", 1/2, "moderate"⟩] ∧
    (∀ i, i < 10 →
      (renderedCorrelations
        [⟨"temperature", "defect_count", 1/2, "moderate"⟩])[i]? =
      ([(⟨"temperature", "defect_count", 1/2, "moderate"⟩ : CorrDisplay)])[i]?) ∧
    (∀ i, 10 ≤ i →
      (renderedCorrelations
        [⟨"temperature", "defect_count", 1/2, "moderate"⟩])[i]? = none) :=
  renderedCorrelations_first_ten [⟨"temperature", "defect_count", 1/2, "moderate"⟩]

end

end IndustrialDetective
